import Mathlib

/-!
Shallow embedding of the `mcpe_motd` Rust library (`src/lib.rs`).

The library sends a RakNet unconnected-ping datagram and decodes the
unconnected-pong reply.  The embedding models:

* the error taxonomy (`MotdErrorCode`, `MotdError`);
* the request packet constant;
* the fixed-layout binary decoding of the pong reply (`decodePong`),
  with a Rust panic (out-of-bounds slice index) modelled as `none`;
* the semicolon-separated server-id-string field parser
  (`parseServerIdString`), including the default-substitution policy
  for absent optional fields;
* the top-level `fetch_unconected_pong`, with the socket operations
  replaced by an explicit outcome oracle (`NetOutcome`).

Byte sequences are `List Nat`, read modulo 256 (`byteAt`); strings are
`List Char`.  Machine integers are `Int`/`Nat` with explicit range
checks where the Rust code performs them.
-/

set_option maxRecDepth 4000

deriving instance DecidableEq for Except

namespace McpeMotd

/-- Error codes of the library (Rust enum `MotdErrorCode`). -/
inductive MotdErrorCode where
  /-- UdpSocket could not bind on 0.0.0.0:0. -/
  | CantBind
  /-- UdpSocket could not send the raknet packet to the target server. -/
  | CantSendTo
  /-- Fewer than the 4 required fields in the server id string. -/
  | ServerIdStringTooSmall
  /-- protocol_version token present but not a valid i16. -/
  | CantParseProtocolVersion
  /-- player_count token present but not a valid i32. -/
  | CantParsePlayerCount
  /-- max_player_count token present but not a valid i32. -/
  | CantParsePlayerMaxCount
  /-- gamemode_numeric token present but not a valid u8. -/
  | CantParseGameModeNum
  /-- port_v4 token present but not a valid u16. -/
  | CantParsePort4
  /-- port_v6 token present but not a valid u16. -/
  | CantParsePort6
deriving DecidableEq, Repr

/-- Rust struct `MotdError`: an error code plus a message. -/
structure MotdError where
  code : MotdErrorCode
  message : String
deriving DecidableEq, Repr

/-- Rust struct `ServerIdStringParsed`.  `i16`/`i32` fields are `Int`
(ranges enforced by the parser), `u8`/`u16` fields are `Nat`. -/
structure ServerIdStringParsed where
  edition : List Char
  motd : List Char
  protocol_version : Int
  version_name : List Char
  player_count : Int
  max_player_count : Int
  server_unique_id : List Char
  level_name : List Char
  gamemode : List Char
  gamemode_numeric : Nat
  port_v4 : Nat
  port_v6 : Nat
deriving DecidableEq, Repr

/-- Rust struct `UnconnectedPong`. -/
structure UnconnectedPong where
  id : Nat
  time_since_start : Int
  server_guid : Int
  magic : List Nat
  server_id_string_len : Int
  server_id_string_raw : List Char
  server_id_string_parsed_ok : Bool
  server_id_string_parsed : ServerIdStringParsed
deriving DecidableEq, Repr

/-- The 16-byte raknet magic constant (`MAGIC` in the source). -/
def MAGIC : List Nat :=
  [0x00, 0xff, 0xff, 0x00, 0xfe, 0xfe, 0xfe, 0xfe,
   0xfd, 0xfd, 0xfd, 0xfd, 0x12, 0x34, 0x56, 0x78]

/-- The 33-byte request datagram `buf` built in `fetch_unconected_pong`:
id `0x01`, eight time bytes (the last of which is `0x10` in the source),
the 16 magic bytes, and eight zero client-guid bytes. -/
def requestPacket : List Nat :=
  [0x01,
   0x00, 0x00, 0x00, 0x00, 0x00, 0x00, 0x00, 0x10,
   0x00, 0xff, 0xff, 0x00, 0xfe, 0xfe, 0xfe, 0xfe,
   0xfd, 0xfd, 0xfd, 0xfd, 0x12, 0x34, 0x56, 0x78,
   0x00, 0x00, 0x00, 0x00, 0x00, 0x00, 0x00, 0x00]

/-! ### Error values built by the source, with their exact messages -/

/-- Error returned on the `UdpSocket::bind` failure arm.  Note the source
uses code `CantSendTo` here, not `CantBind`. -/
def bindFailError : MotdError :=
  { code := .CantSendTo, message := "Couldn't bind to 0.0.0.0:0" }

/-- Error returned on the `send_to` failure arm. -/
def sendFailError : MotdError :=
  { code := .CantSendTo, message := "Couldn't send to ... (here should be ip)" }

/-- Error for a server id string with fewer than 4 non-empty fields. -/
def tooSmallError : MotdError :=
  { code := .ServerIdStringTooSmall,
    message := "Server id string has less than 4 required fields" }

/-- Error for an unparsable protocol_version token. -/
def protocolVersionError : MotdError :=
  { code := .CantParseProtocolVersion,
    message := "Couldn't parse protocol_version field from server id string" }

/-- Error for an unparsable player_count token. -/
def playerCountError : MotdError :=
  { code := .CantParsePlayerCount,
    message := "Couldn't parse player_count field from server id string" }

/-- Error for an unparsable max_player_count token. -/
def playerMaxCountError : MotdError :=
  { code := .CantParsePlayerMaxCount,
    message := "Couldn't parse max_player_count field from server id string" }

/-- Error for an unparsable gamemode_numeric token. -/
def gameModeNumError : MotdError :=
  { code := .CantParseGameModeNum,
    message := "Couldn't parse gamemode_numeric field from server id string" }

/-- Error for an unparsable port_v4 token. -/
def port4Error : MotdError :=
  { code := .CantParsePort4,
    message := "Couldn't parse port_v4 field from server id string" }

/-- Error for an unparsable port_v6 token. -/
def port6Error : MotdError :=
  { code := .CantParsePort6,
    message := "Couldn't parse port_v6 field from server id string" }

/-! ### Rust `str::split` / integer `FromStr` models -/

/-- Rust `server_id_string.split(";")`: the (possibly empty) substrings
between `;` separators, in order.  `"".split(";")` yields `[""]`. -/
def splitSemi : List Char → List (List Char)
  | [] => [[]]
  | c :: rest =>
    if c = ';' then [] :: splitSemi rest
    else
      match splitSemi rest with
      | [] => [[c]]
      | t :: ts => (c :: t) :: ts

/-- The source's `.split(";").filter(|s| *s != "")`: split on `;` and
discard empty tokens. -/
def splitTokens (s : List Char) : List (List Char) :=
  (splitSemi s).filter (fun t => !t.isEmpty)

/-- ASCII decimal digit test, as used by Rust `from_str_radix` with radix 10. -/
def isAsciiDigit (c : Char) : Bool := '0' ≤ c && c ≤ '9'

/-- Numeric value of a list of ASCII decimal digits (most significant first). -/
def digitsVal (l : List Char) : Nat :=
  l.foldl (fun acc c => acc * 10 + (c.toNat - '0'.toNat)) 0

/-- Model of Rust `str::parse` for an unsigned integer type of bit width
`w` (`u8`, `u16`): an optional leading `+`, then at least one ASCII digit,
and the value must fit the type; `-` is not accepted for unsigned types. -/
def parseUnsigned (w : Nat) (s : List Char) : Option Nat :=
  match s with
  | [] => none
  | '+' :: rest =>
    if !rest.isEmpty && rest.all isAsciiDigit && digitsVal rest < 2 ^ w then
      some (digitsVal rest)
    else none
  | _ =>
    if s.all isAsciiDigit && digitsVal s < 2 ^ w then
      some (digitsVal s)
    else none

/-- Model of Rust `str::parse` for a signed integer type of bit width `w`
(`i16`, `i32`): an optional leading `+` or `-`, then at least one ASCII
digit, and the value must fit the type's two's-complement range. -/
def parseSigned (w : Nat) (s : List Char) : Option Int :=
  match s with
  | [] => none
  | '+' :: rest =>
    if !rest.isEmpty && rest.all isAsciiDigit && digitsVal rest < 2 ^ (w - 1) then
      some (digitsVal rest)
    else none
  | '-' :: rest =>
    if !rest.isEmpty && rest.all isAsciiDigit && digitsVal rest ≤ 2 ^ (w - 1) then
      some (-(digitsVal rest : Int))
    else none
  | _ =>
    if s.all isAsciiDigit && digitsVal s < 2 ^ (w - 1) then
      some (digitsVal s)
    else none

/-! ### The field parser (source lines 171-263) -/

/-- One optional signed field of the server id string: if `present`
(token count reaches its index) the token must parse as an `i`-width
signed integer or the whole call fails with `err`; if absent the default
is substituted and the parsed-ok flag component becomes `false`. -/
def optI (w : Nat) (present : Bool) (tok : List Char) (dflt : Int)
    (err : MotdError) : Except MotdError (Int × Bool) :=
  if present then
    match parseSigned w tok with
    | some v => .ok (v, true)
    | none => .error err
  else .ok (dflt, false)

/-- One optional unsigned field of the server id string; see `optI`. -/
def optN (w : Nat) (present : Bool) (tok : List Char) (dflt : Nat)
    (err : MotdError) : Except MotdError (Nat × Bool) :=
  if present then
    match parseUnsigned w tok with
    | some v => .ok (v, true)
    | none => .error err
  else .ok (dflt, false)

/-- The server-id-string parsing stage of `fetch_unconected_pong`
(source lines 171-263): split on `;`, discard empty tokens, require at
least 4 tokens, parse required fields 0-3 and optional fields 4-11 in
source order, substituting defaults for absent optional fields.  Returns
the parsed struct together with the final `server_id_string_parsed_ok`
flag (initially `true`, cleared by each absent numeric optional field;
the string optional fields 6-8 do not touch the flag in the source). -/
def parseServerIdString (s : List Char) :
    Except MotdError (ServerIdStringParsed × Bool) :=
  let toks := splitTokens s
  let n := toks.length
  if n < 4 then .error tooSmallError
  else
    match parseSigned 16 (toks.getD 2 []) with
    | none => .error protocolVersionError
    | some protocol_version =>
      match optI 32 (decide (5 ≤ n)) (toks.getD 4 []) (-1) playerCountError with
      | .error e => .error e
      | .ok (player_count, ok4) =>
        match optI 32 (decide (6 ≤ n)) (toks.getD 5 []) (-1) playerMaxCountError with
        | .error e => .error e
        | .ok (max_player_count, ok5) =>
          match optN 8 (decide (10 ≤ n)) (toks.getD 9 []) 0 gameModeNumError with
          | .error e => .error e
          | .ok (gamemode_numeric, ok9) =>
            match optN 16 (decide (11 ≤ n)) (toks.getD 10 []) 19132 port4Error with
            | .error e => .error e
            | .ok (port_v4, ok10) =>
              match optN 16 (decide (12 ≤ n)) (toks.getD 11 []) 19132 port6Error with
              | .error e => .error e
              | .ok (port_v6, ok11) =>
                .ok ({ edition := toks.getD 0 []
                       motd := toks.getD 1 []
                       protocol_version
                       version_name := toks.getD 3 []
                       player_count
                       max_player_count
                       server_unique_id := if 7 ≤ n then toks.getD 6 [] else []
                       level_name := if 8 ≤ n then toks.getD 7 [] else []
                       gamemode := if 9 ≤ n then toks.getD 8 [] else "Survival".toList
                       gamemode_numeric
                       port_v4
                       port_v6 },
                     ok4 && ok5 && ok9 && ok10 && ok11)

/-! ### Binary decoding of the pong reply -/

/-- Byte `i` of the reply (`response[i]` in the source); out-of-range
reads never occur in guarded positions, and values are reduced mod 256
to reflect `u8`. -/
def byteAt (r : List Nat) (i : Nat) : Nat := r.getD i 0 % 256

/-- Big-endian value of the `cnt` bytes of `r` starting at offset `off`
(byte `off` most significant).  This is the value assembled by the
source's shift-and-or chains: the ORed summands have disjoint bit
ranges because each byte is below 256, so the OR equals this sum. -/
def beAt (r : List Nat) (off : Nat) : Nat → Nat
  | 0 => 0
  | cnt + 1 => beAt r off cnt * 256 + byteAt r (off + cnt)

/-- Two's-complement reinterpretation of a `w`-bit unsigned value, as
produced by assembling unsigned bytes into a Rust `i64`/`i16`. -/
def toSigned (w : Nat) (v : Nat) : Int :=
  if v < 2 ^ (w - 1) then (v : Int) else (v : Int) - 2 ^ w

/-- Rust `server_id_string_len as usize` on an `i16` value: sign-extend
to 64 bits and reinterpret as unsigned. -/
def usizeOfI16 (x : Int) : Nat :=
  (if x < 0 then x + 2 ^ 64 else x).toNat

/-- Is `b` a UTF-8 continuation byte (`0x80..0xBF`)? -/
def isCont (b : Nat) : Bool := 0x80 ≤ b && b ≤ 0xBF

/-- The U+FFFD replacement character. -/
def replacementChar : Char := Char.ofNat 0xFFFD

/-- Worker for `utf8DecodeLossy`, structurally recursive on a fuel
argument so that it evaluates inside the kernel; every step consumes at
least one byte, so fuel equal to the input length is always enough and
the fuel-exhausted branch is unreachable from `utf8DecodeLossy`. -/
def utf8Go : Nat → List Nat → List Char
  | _, [] => []
  | 0, _ :: _ => []
  | fuel + 1, b0 :: t0 =>
    if b0 < 0x80 then Char.ofNat b0 :: utf8Go fuel t0
    else if b0 < 0xC2 then replacementChar :: utf8Go fuel t0
    else if b0 < 0xE0 then
      match t0 with
      | [] => [replacementChar]
      | b1 :: t1 =>
        if isCont b1 then
          Char.ofNat ((b0 - 0xC0) * 0x40 + (b1 - 0x80)) :: utf8Go fuel t1
        else replacementChar :: utf8Go fuel (b1 :: t1)
    else if b0 < 0xF0 then
      match t0 with
      | [] => [replacementChar]
      | b1 :: t1 =>
        if (if b0 = 0xE0 then 0xA0 ≤ b1 && b1 ≤ 0xBF
            else if b0 = 0xED then 0x80 ≤ b1 && b1 ≤ 0x9F
            else isCont b1) then
          match t1 with
          | [] => [replacementChar]
          | b2 :: t2 =>
            if isCont b2 then
              Char.ofNat ((b0 - 0xE0) * 0x1000 + (b1 - 0x80) * 0x40 + (b2 - 0x80)) ::
                utf8Go fuel t2
            else replacementChar :: utf8Go fuel (b2 :: t2)
        else replacementChar :: utf8Go fuel (b1 :: t1)
    else if b0 < 0xF5 then
      match t0 with
      | [] => [replacementChar]
      | b1 :: t1 =>
        if (if b0 = 0xF0 then 0x90 ≤ b1 && b1 ≤ 0xBF
            else if b0 = 0xF4 then 0x80 ≤ b1 && b1 ≤ 0x8F
            else isCont b1) then
          match t1 with
          | [] => [replacementChar]
          | b2 :: t2 =>
            if isCont b2 then
              match t2 with
              | [] => [replacementChar]
              | b3 :: t3 =>
                if isCont b3 then
                  Char.ofNat ((b0 - 0xF0) * 0x40000 + (b1 - 0x80) * 0x1000 +
                      (b2 - 0x80) * 0x40 + (b3 - 0x80)) :: utf8Go fuel t3
                else replacementChar :: utf8Go fuel (b3 :: t3)
            else replacementChar :: utf8Go fuel (b2 :: t2)
        else replacementChar :: utf8Go fuel (b1 :: t1)
    else replacementChar :: utf8Go fuel t0

/-- Model of Rust `String::from_utf8_lossy`: decode UTF-8, replacing
each maximal invalid subpart with one U+FFFD (WHATWG substitution
policy, as documented for `Utf8Error`): an invalid byte or an
out-of-range continuation byte yields one replacement character and
decoding resumes after the valid prefix of the rejected sequence; a
truncated sequence at end of input yields a single replacement. -/
def utf8DecodeLossy (l : List Nat) : List Char := utf8Go l.length l

/-- The pure decoding stage of `fetch_unconected_pong` (source lines
138-263), applied to the received byte slice.  The source indexes the
slice without bounds checks, so a reply shorter than the fixed 35-byte
header, or shorter than `35 + (server_id_string_len as usize)`, panics
with an out-of-bounds index: that outcome is modelled as `none`.
`some (.error e)` is an early `return Err(e)`, `some (.ok p)` success. -/
def decodePong (response : List Nat) : Option (Except MotdError UnconnectedPong) :=
  if response.length < 35 then none
  else
    let id := byteAt response 0
    let time_since_start := toSigned 64 (beAt response 1 8)
    let server_guid := toSigned 64 (beAt response 9 8)
    let server_id_string_len := toSigned 16 (beAt response 33 2)
    let strLen := usizeOfI16 server_id_string_len
    if response.length < 35 + strLen then none
    else
      let server_id_string :=
        utf8DecodeLossy (((response.drop 35).take strLen).map (· % 256))
      match parseServerIdString server_id_string with
      | .error e => some (.error e)
      | .ok (parsed, ok) =>
        some (.ok { id
                    time_since_start
                    server_guid
                    magic := MAGIC
                    server_id_string_len
                    server_id_string_raw := server_id_string
                    server_id_string_parsed_ok := ok
                    server_id_string_parsed := parsed })

/-! ### The top-level call with the socket replaced by an oracle -/

/-- Outcome of the socket operations performed by one call: the bind can
fail, the send can fail, the blocking receive can fail, or a datagram is
received.  This replaces the `UdpSocket` side effects. -/
inductive NetOutcome where
  | bindFail
  | sendFail
  | recvFail
  | recv (datagram : List Nat)

/-- `fetch_unconected_pong`, with socket behaviour given by the oracle.
The bind-failure arm of the source returns code `CantSendTo` (with a
bind message); a `recv_from` failure hits `.expect("ddd")`, a panic,
modelled as `none`.  A received datagram is truncated to the 1024-byte
receive buffer and decoded. -/
def fetchUnconectedPong : NetOutcome → Option (Except MotdError UnconnectedPong)
  | .bindFail => some (.error bindFailError)
  | .sendFail => some (.error sendFailError)
  | .recvFail => none
  | .recv datagram => decodePong (datagram.take 1024)

/-- `fetch_server_id_string`: `fetch_unconected_pong` projected to the
parsed server id string. -/
def fetchServerIdString (net : NetOutcome) :
    Option (Except MotdError ServerIdStringParsed) :=
  (fetchUnconectedPong net).map (Except.map (·.server_id_string_parsed))

/-! ### Concrete reply fixtures -/

/-- A well-formed 45-byte reply fixture: id `0x1c`, uptime 123456789,
server guid `-1` (eight `0xFF` bytes), the magic bytes, declared string
length 10 and the ten-byte status string `"MCPE;a;1;b"`. -/
def c9fix : List Nat :=
  [0x1c] ++ [0x00, 0x00, 0x00, 0x00, 0x07, 0x5B, 0xCD, 0x15] ++
    List.replicate 8 0xFF ++ MAGIC ++ [0x00, 0x0A] ++
    ("MCPE;a;1;b".toList.map Char.toNat)

/-- The decoded form of `c9fix`. -/
def c9pong : UnconnectedPong :=
  { id := 0x1c
    time_since_start := 123456789
    server_guid := -1
    magic := MAGIC
    server_id_string_len := 10
    server_id_string_raw := "MCPE;a;1;b".toList
    server_id_string_parsed_ok := false
    server_id_string_parsed :=
      { edition := "MCPE".toList
        motd := "a".toList
        protocol_version := 1
        version_name := "b".toList
        player_count := -1
        max_player_count := -1
        server_unique_id := []
        level_name := []
        gamemode := "Survival".toList
        gamemode_numeric := 0
        port_v4 := 19132
        port_v6 := 19132 } }

/-- A 35-byte reply whose declared string length is `-1` (bytes
`0xFF 0xFF` at offsets 33-34). -/
def negLenFix : List Nat := [0x1c] ++ List.replicate 32 0 ++ [0xFF, 0xFF]

/-- A 45-byte reply with a wrong packet id (`0x42`) and a corrupted
magic region (sixteen `0xAA` bytes). -/
def c6fix : List Nat :=
  [0x42] ++ List.replicate 8 0 ++ List.replicate 8 0 ++
    List.replicate 16 0xAA ++ [0x00, 0x0A] ++
    ("MCPE;a;1;b".toList.map Char.toNat)

/-- The decoded form of `c6fix`: the wrong id is echoed verbatim and the
magic field is the fixed constant, not the received `0xAA` bytes. -/
def c6pong : UnconnectedPong :=
  { id := 0x42
    time_since_start := 0
    server_guid := 0
    magic := MAGIC
    server_id_string_len := 10
    server_id_string_raw := "MCPE;a;1;b".toList
    server_id_string_parsed_ok := false
    server_id_string_parsed :=
      { edition := "MCPE".toList
        motd := "a".toList
        protocol_version := 1
        version_name := "b".toList
        player_count := -1
        max_player_count := -1
        server_unique_id := []
        level_name := []
        gamemode := "Survival".toList
        gamemode_numeric := 0
        port_v4 := 19132
        port_v6 := 19132 } }

/-! ### Helper lemmas about the optional-field combinators -/

theorem optI_pos (w : Nat) (tok : List Char) (dflt : Int) (err : MotdError)
    (v : Int) (h : parseSigned w tok = some v) :
    optI w true tok dflt err = .ok (v, true) := by
  simp [optI, h]

theorem optI_neg (w : Nat) (tok : List Char) (dflt : Int) (err : MotdError)
    (h : parseSigned w tok = none) :
    optI w true tok dflt err = .error err := by
  simp [optI, h]

theorem optI_absent (w : Nat) (tok : List Char) (dflt : Int) (err : MotdError) :
    optI w false tok dflt err = .ok (dflt, false) := rfl

theorem optN_pos (w : Nat) (tok : List Char) (dflt : Nat) (err : MotdError)
    (v : Nat) (h : parseUnsigned w tok = some v) :
    optN w true tok dflt err = .ok (v, true) := by
  simp [optN, h]

theorem optN_neg (w : Nat) (tok : List Char) (dflt : Nat) (err : MotdError)
    (h : parseUnsigned w tok = none) :
    optN w true tok dflt err = .error err := by
  simp [optN, h]

theorem optN_absent (w : Nat) (tok : List Char) (dflt : Nat) (err : MotdError) :
    optN w false tok dflt err = .ok (dflt, false) := rfl

/-- Inversion: a successful optional signed field reports presence in its
flag component, and yields the default exactly when absent. -/
theorem optI_ok_inv (w : Nat) (present : Bool) (tok : List Char) (dflt : Int)
    (err : MotdError) (v : Int) (b : Bool)
    (h : optI w present tok dflt err = .ok (v, b)) :
    b = present ∧ (present = false → v = dflt) := by
  cases present with
  | false =>
    rw [optI_absent] at h
    injection h with h1
    injection h1 with h2 h3
    exact ⟨h3.symm, fun _ => h2.symm⟩
  | true =>
    unfold optI at h
    simp only [if_pos] at h
    constructor
    · cases hp : parseSigned w tok with
      | none => rw [hp] at h; exact absurd h (by simp)
      | some u =>
        rw [hp] at h
        injection h with h1
        injection h1 with h2 h3
        exact h3.symm
    · intro hfalse; exact absurd hfalse (by simp)

/-- Inversion for `optN`; see `optI_ok_inv`. -/
theorem optN_ok_inv (w : Nat) (present : Bool) (tok : List Char) (dflt : Nat)
    (err : MotdError) (v : Nat) (b : Bool)
    (h : optN w present tok dflt err = .ok (v, b)) :
    b = present ∧ (present = false → v = dflt) := by
  cases present with
  | false =>
    rw [optN_absent] at h
    injection h with h1
    injection h1 with h2 h3
    exact ⟨h3.symm, fun _ => h2.symm⟩
  | true =>
    unfold optN at h
    simp only [if_pos] at h
    constructor
    · cases hp : parseUnsigned w tok with
      | none => rw [hp] at h; exact absurd h (by simp)
      | some u =>
        rw [hp] at h
        injection h with h1
        injection h1 with h2 h3
        exact h3.symm
    · intro hfalse; exact absurd hfalse (by simp)

/-- Case split on an optional signed field whose token, when present,
parses: the combinator succeeds, with the default and a cleared flag
exactly in the absent case. -/
theorem optI_cases (w : Nat) (c : Prop) [Decidable c] (tok : List Char)
    (dflt : Int) (err : MotdError)
    (hps : c → (parseSigned w tok).isSome) :
    ∃ v b, optI w (decide c) tok dflt err = .ok (v, b) ∧
      (¬c → v = dflt ∧ b = false) := by
  by_cases hc : c
  · obtain ⟨v, hv⟩ := Option.isSome_iff_exists.mp (hps hc)
    exact ⟨v, true, by rw [decide_eq_true hc]; exact optI_pos w tok dflt err v hv,
      fun hn => absurd hc hn⟩
  · exact ⟨dflt, false, by rw [decide_eq_false hc]; exact optI_absent w tok dflt err,
      fun _ => ⟨rfl, rfl⟩⟩

/-- Case split for `optN`; see `optI_cases`. -/
theorem optN_cases (w : Nat) (c : Prop) [Decidable c] (tok : List Char)
    (dflt : Nat) (err : MotdError)
    (hps : c → (parseUnsigned w tok).isSome) :
    ∃ v b, optN w (decide c) tok dflt err = .ok (v, b) ∧
      (¬c → v = dflt ∧ b = false) := by
  by_cases hc : c
  · obtain ⟨v, hv⟩ := Option.isSome_iff_exists.mp (hps hc)
    exact ⟨v, true, by rw [decide_eq_true hc]; exact optN_pos w tok dflt err v hv,
      fun hn => absurd hc hn⟩
  · exact ⟨dflt, false, by rw [decide_eq_false hc]; exact optN_absent w tok dflt err,
      fun _ => ⟨rfl, rfl⟩⟩

/-! ### Characterization lemmas for `parseServerIdString` -/

theorem parseSIS_build (s : List Char) (pv pc mpc : Int) (gmn p4 p6 : Nat)
    (ok4 ok5 ok9 ok10 ok11 : Bool)
    (hn : ¬ (splitTokens s).length < 4)
    (hpv : parseSigned 16 ((splitTokens s).getD 2 []) = some pv)
    (h4 : optI 32 (decide (5 ≤ (splitTokens s).length))
      ((splitTokens s).getD 4 []) (-1) playerCountError = .ok (pc, ok4))
    (h5 : optI 32 (decide (6 ≤ (splitTokens s).length))
      ((splitTokens s).getD 5 []) (-1) playerMaxCountError = .ok (mpc, ok5))
    (h9 : optN 8 (decide (10 ≤ (splitTokens s).length))
      ((splitTokens s).getD 9 []) 0 gameModeNumError = .ok (gmn, ok9))
    (h10 : optN 16 (decide (11 ≤ (splitTokens s).length))
      ((splitTokens s).getD 10 []) 19132 port4Error = .ok (p4, ok10))
    (h11 : optN 16 (decide (12 ≤ (splitTokens s).length))
      ((splitTokens s).getD 11 []) 19132 port6Error = .ok (p6, ok11)) :
    parseServerIdString s =
      .ok ({ edition := (splitTokens s).getD 0 []
             motd := (splitTokens s).getD 1 []
             protocol_version := pv
             version_name := (splitTokens s).getD 3 []
             player_count := pc
             max_player_count := mpc
             server_unique_id :=
               if 7 ≤ (splitTokens s).length then (splitTokens s).getD 6 [] else []
             level_name :=
               if 8 ≤ (splitTokens s).length then (splitTokens s).getD 7 [] else []
             gamemode :=
               if 9 ≤ (splitTokens s).length then (splitTokens s).getD 8 []
               else "Survival".toList
             gamemode_numeric := gmn
             port_v4 := p4
             port_v6 := p6 },
           ok4 && ok5 && ok9 && ok10 && ok11) := by
  simp only [parseServerIdString]
  rw [if_neg hn, hpv, h4, h5, h9, h10, h11]

theorem parseSIS_err_pv (s : List Char)
    (hn : ¬ (splitTokens s).length < 4)
    (hpv : parseSigned 16 ((splitTokens s).getD 2 []) = none) :
    parseServerIdString s = .error protocolVersionError := by
  simp only [parseServerIdString]
  rw [if_neg hn, hpv]

theorem parseSIS_err_pc (s : List Char) (pv : Int)
    (hn : ¬ (splitTokens s).length < 4)
    (hpv : parseSigned 16 ((splitTokens s).getD 2 []) = some pv)
    (h4 : optI 32 (decide (5 ≤ (splitTokens s).length))
      ((splitTokens s).getD 4 []) (-1) playerCountError = .error playerCountError) :
    parseServerIdString s = .error playerCountError := by
  simp only [parseServerIdString]
  rw [if_neg hn, hpv, h4]

theorem parseSIS_err_mpc (s : List Char) (pv pc : Int) (ok4 : Bool)
    (hn : ¬ (splitTokens s).length < 4)
    (hpv : parseSigned 16 ((splitTokens s).getD 2 []) = some pv)
    (h4 : optI 32 (decide (5 ≤ (splitTokens s).length))
      ((splitTokens s).getD 4 []) (-1) playerCountError = .ok (pc, ok4))
    (h5 : optI 32 (decide (6 ≤ (splitTokens s).length))
      ((splitTokens s).getD 5 []) (-1) playerMaxCountError =
        .error playerMaxCountError) :
    parseServerIdString s = .error playerMaxCountError := by
  simp only [parseServerIdString]
  rw [if_neg hn, hpv, h4, h5]

theorem parseSIS_err_gmn (s : List Char) (pv pc mpc : Int) (ok4 ok5 : Bool)
    (hn : ¬ (splitTokens s).length < 4)
    (hpv : parseSigned 16 ((splitTokens s).getD 2 []) = some pv)
    (h4 : optI 32 (decide (5 ≤ (splitTokens s).length))
      ((splitTokens s).getD 4 []) (-1) playerCountError = .ok (pc, ok4))
    (h5 : optI 32 (decide (6 ≤ (splitTokens s).length))
      ((splitTokens s).getD 5 []) (-1) playerMaxCountError = .ok (mpc, ok5))
    (h9 : optN 8 (decide (10 ≤ (splitTokens s).length))
      ((splitTokens s).getD 9 []) 0 gameModeNumError = .error gameModeNumError) :
    parseServerIdString s = .error gameModeNumError := by
  simp only [parseServerIdString]
  rw [if_neg hn, hpv, h4, h5, h9]

theorem parseSIS_err_p4 (s : List Char) (pv pc mpc : Int) (gmn : Nat)
    (ok4 ok5 ok9 : Bool)
    (hn : ¬ (splitTokens s).length < 4)
    (hpv : parseSigned 16 ((splitTokens s).getD 2 []) = some pv)
    (h4 : optI 32 (decide (5 ≤ (splitTokens s).length))
      ((splitTokens s).getD 4 []) (-1) playerCountError = .ok (pc, ok4))
    (h5 : optI 32 (decide (6 ≤ (splitTokens s).length))
      ((splitTokens s).getD 5 []) (-1) playerMaxCountError = .ok (mpc, ok5))
    (h9 : optN 8 (decide (10 ≤ (splitTokens s).length))
      ((splitTokens s).getD 9 []) 0 gameModeNumError = .ok (gmn, ok9))
    (h10 : optN 16 (decide (11 ≤ (splitTokens s).length))
      ((splitTokens s).getD 10 []) 19132 port4Error = .error port4Error) :
    parseServerIdString s = .error port4Error := by
  simp only [parseServerIdString]
  rw [if_neg hn, hpv, h4, h5, h9, h10]

theorem parseSIS_err_p6 (s : List Char) (pv pc mpc : Int) (gmn p4 : Nat)
    (ok4 ok5 ok9 ok10 : Bool)
    (hn : ¬ (splitTokens s).length < 4)
    (hpv : parseSigned 16 ((splitTokens s).getD 2 []) = some pv)
    (h4 : optI 32 (decide (5 ≤ (splitTokens s).length))
      ((splitTokens s).getD 4 []) (-1) playerCountError = .ok (pc, ok4))
    (h5 : optI 32 (decide (6 ≤ (splitTokens s).length))
      ((splitTokens s).getD 5 []) (-1) playerMaxCountError = .ok (mpc, ok5))
    (h9 : optN 8 (decide (10 ≤ (splitTokens s).length))
      ((splitTokens s).getD 9 []) 0 gameModeNumError = .ok (gmn, ok9))
    (h10 : optN 16 (decide (11 ≤ (splitTokens s).length))
      ((splitTokens s).getD 10 []) 19132 port4Error = .ok (p4, ok10))
    (h11 : optN 16 (decide (12 ≤ (splitTokens s).length))
      ((splitTokens s).getD 11 []) 19132 port6Error = .error port6Error) :
    parseServerIdString s = .error port6Error := by
  simp only [parseServerIdString]
  rw [if_neg hn, hpv, h4, h5, h9, h10, h11]

/-- Inversion: a successful parse's flag is the conjunction of the five
presence tests of the numeric optional fields. -/
theorem parseSIS_ok_inv (s : List Char) (info : ServerIdStringParsed) (ok : Bool)
    (h : parseServerIdString s = .ok (info, ok)) :
    ok = (decide (5 ≤ (splitTokens s).length) &&
      decide (6 ≤ (splitTokens s).length) &&
      decide (10 ≤ (splitTokens s).length) &&
      decide (11 ≤ (splitTokens s).length) &&
      decide (12 ≤ (splitTokens s).length)) := by
  simp only [parseServerIdString] at h
  split at h
  · exact absurd h (by simp)
  · split at h
    · exact absurd h (by simp)
    · rename_i pv hpv
      split at h
      · exact absurd h (by simp)
      · rename_i pc ok4 heq4
        split at h
        · exact absurd h (by simp)
        · rename_i mpc ok5 heq5
          split at h
          · exact absurd h (by simp)
          · rename_i gmn ok9 heq9
            split at h
            · exact absurd h (by simp)
            · rename_i p4 ok10 heq10
              split at h
              · exact absurd h (by simp)
              · rename_i p6 ok11 heq11
                injection h with h1
                injection h1 with hinfo hok
                rw [← hok,
                  (optI_ok_inv _ _ _ _ _ _ _ heq4).1,
                  (optI_ok_inv _ _ _ _ _ _ _ heq5).1,
                  (optN_ok_inv _ _ _ _ _ _ _ heq9).1,
                  (optN_ok_inv _ _ _ _ _ _ _ heq10).1,
                  (optN_ok_inv _ _ _ _ _ _ _ heq11).1]

/-! ### Helper lemmas about byte reads -/

theorem byteAt_set_ne (r : List Nat) (i j v : Nat) (h : i ≠ j) :
    byteAt (r.set i v) j = byteAt r j := by
  unfold byteAt
  rw [List.getD_eq_getElem?_getD, List.getD_eq_getElem?_getD,
    List.getElem?_set_ne h]

theorem byteAt_set_self (r : List Nat) (i v : Nat) (h : i < r.length) :
    byteAt (r.set i v) i = v % 256 := by
  unfold byteAt
  rw [List.getD_eq_getElem?_getD, List.getElem?_set_self h]
  rfl

theorem beAt_set_out (r : List Nat) (i v off : Nat) (cnt : Nat)
    (h : i < off ∨ off + cnt ≤ i) :
    beAt (r.set i v) off cnt = beAt r off cnt := by
  induction cnt with
  | zero => rfl
  | succ cnt ih =>
    unfold beAt
    rw [ih (by omega), byteAt_set_ne r i (off + cnt) v (by omega)]

theorem drop35_set (r : List Nat) (i v : Nat) (h : i < 35) :
    (r.set i v).drop 35 = r.drop 35 :=
  List.drop_set_of_lt v r h

/-! ### Claim theorems -/

/-- C1 counterexample: decoding a 34-byte reply does not fail with any
error value (there is no truncation error kind in `MotdErrorCode`); it
panics on an out-of-bounds index, modelled as `none`, so the claimed
"fails with the truncation error kind and never panics" is false. -/
theorem c1_truncated_counterexample :
    decodePong (List.replicate 34 0) = none ∧
    fetchUnconectedPong (.recv (List.replicate 34 0)) = none := by
  exact ⟨by decide, by decide⟩

/-- C1 amended: decoding any reply shorter than 35 bytes, or shorter
than 35 plus the declared string length reinterpreted as a `usize`
(so also any reply whose declared signed 16-bit length is negative),
panics via an out-of-bounds index — modelled as `none` — instead of
returning a truncation error; no truncation error kind exists. -/
theorem c1_short_reply_panics :
    (∀ r : List Nat, r.length < 35 → decodePong r = none) ∧
    (∀ r : List Nat,
      r.length < 35 + usizeOfI16 (toSigned 16 (beAt r 33 2)) →
      decodePong r = none) := by
  constructor
  · intro r h
    simp only [decodePong]
    rw [if_pos h]
  · intro r h
    simp only [decodePong]
    by_cases h35 : r.length < 35
    · rw [if_pos h35]
    · rw [if_neg h35, if_pos h]

/-- C1 witness: the amended theorem applied to a 34-byte all-zero reply
and to a 35-byte reply declaring string length `-1`. -/
theorem c1_short_reply_panics_witness :
    ((List.replicate 34 0 : List Nat).length < 35 ∧
      decodePong (List.replicate 34 0) = none) ∧
    (negLenFix.length < 35 + usizeOfI16 (toSigned 16 (beAt negLenFix 33 2)) ∧
      decodePong negLenFix = none) :=
  ⟨⟨by decide, c1_short_reply_panics.1 (List.replicate 34 0) (by decide)⟩,
   ⟨by decide, c1_short_reply_panics.2 negLenFix (by decide)⟩⟩

/-- C5 counterexample: the request datagram is not
`id || 8 zero bytes || magic || 8 zero bytes` — its byte at index 8
(the last timestamp byte) is `0x10`, not `0x00`. -/
theorem c5_request_counterexample :
    requestPacket.getD 8 0 = 0x10 ∧
    requestPacket ≠ [0x01] ++ List.replicate 8 0 ++ MAGIC ++ List.replicate 8 0 := by
  exact ⟨by decide, by decide⟩

/-- C5 amended: the single request datagram is the fixed 33-byte
sequence id `0x01`, then timestamp bytes `00 00 00 00 00 00 00 10`,
then the 16-byte magic constant, then 8 zero client-guid bytes. -/
theorem c5_request_packet_bytes :
    requestPacket =
      [0x01] ++ [0x00, 0x00, 0x00, 0x00, 0x00, 0x00, 0x00, 0x10] ++
        MAGIC ++ List.replicate 8 0 ∧
    requestPacket.length = 33 := by
  exact ⟨by decide, by decide⟩

/-- C7: when binding the local endpoint fails, the call returns the
error code `CantSendTo` (with a bind-failure message), not the
documented bind-failure kind `CantBind`; the code that the enum
documentation reserves for this case is never produced. -/
theorem c7_bind_failure_code :
    fetchUnconectedPong .bindFail = some (.error bindFailError) ∧
    bindFailError.code = .CantSendTo ∧
    MotdErrorCode.CantSendTo ≠ MotdErrorCode.CantBind := by
  exact ⟨rfl, rfl, by decide⟩

/-- C8: splitting discards empty tokens and preserves the order of the
non-empty ones (`"a;;b;c"` gives exactly `["a","b","c"]`; in general the
token list is a sublist of the raw split and contains no empty token),
and fewer than 4 non-empty tokens fail with `ServerIdStringTooSmall`. -/
theorem c8_split_and_too_few_fields :
    splitTokens "a;;b;c".toList = ["a".toList, "b".toList, "c".toList] ∧
    (∀ s : List Char, List.Sublist (splitTokens s) (splitSemi s)) ∧
    (∀ s : List Char, ∀ t ∈ splitTokens s, t ≠ []) ∧
    (∀ s : List Char, (splitTokens s).length < 4 →
      parseServerIdString s = .error tooSmallError) := by
  refine ⟨by decide, fun s => List.filter_sublist _, ?_, ?_⟩
  · intro s t ht
    have hp := List.of_mem_filter ht
    simpa using hp
  · intro s h
    simp only [parseServerIdString]
    rw [if_pos h]

/-- C8 witness: the general conjuncts applied to concrete inputs. -/
theorem c8_split_witness :
    ('a' :: [] : List Char) ≠ [] ∧
    parseServerIdString "a;b".toList = .error tooSmallError :=
  ⟨c8_split_and_too_few_fields.2.2.1 "a;;b;c".toList ['a'] (by decide),
   c8_split_and_too_few_fields.2.2.2 "a;b".toList (by decide)⟩

/-- C10: empty tokens are discarded before positional indexing, so a
token at an optional position is never empty (and an empty numeric
field can never trigger a per-field parse error); in particular
`"MCPE;m;1;v;;20"` assigns 20 to `player_count` and leaves
`max_player_count` at its default `-1`. -/
theorem c10_empty_token_shift :
    (∀ s : List Char, ∀ t ∈ splitTokens s, ¬t.isEmpty) ∧
    parseServerIdString "MCPE;m;1;v;;20".toList =
      .ok ({ edition := "MCPE".toList
             motd := "m".toList
             protocol_version := 1
             version_name := "v".toList
             player_count := 20
             max_player_count := -1
             server_unique_id := []
             level_name := []
             gamemode := "Survival".toList
             gamemode_numeric := 0
             port_v4 := 19132
             port_v6 := 19132 }, false) := by
  constructor
  · intro s t ht
    have hp := List.of_mem_filter ht
    simpa using hp
  · decide

/-- C10 witness: the quantified conjunct applied to the example string
and its first token. -/
theorem c10_empty_token_shift_witness :
    ¬(['M', 'C', 'P', 'E'] : List Char).isEmpty :=
  c10_empty_token_shift.1 "MCPE;m;1;v;;20".toList "MCPE".toList (by decide)

/-- C3: for every successful parse, the returned flag is true exactly
when all optional fields (indices 4-11) are present, i.e. when no
optional field fell back to its default. -/
theorem c3_parsed_ok_iff_all_optional_present :
    ∀ (s : List Char) (info : ServerIdStringParsed) (ok : Bool),
      parseServerIdString s = .ok (info, ok) →
      (ok = true ↔ 12 ≤ (splitTokens s).length) := by
  intro s info ok h
  rw [parseSIS_ok_inv s info ok h]
  simp only [Bool.and_eq_true, decide_eq_true_eq]
  omega

/-- C3 witness: the theorem applied to a 12-token status string, whose
flag is true, and the instantiated equivalence. -/
theorem c3_parsed_ok_witness :
    (true : Bool) = true ↔ 12 ≤ (splitTokens "e;m;1;v;1;2;u;l;g;3;4;5".toList).length :=
  c3_parsed_ok_iff_all_optional_present "e;m;1;v;1;2;u;l;g;3;4;5".toList
    { edition := "e".toList
      motd := "m".toList
      protocol_version := 1
      version_name := "v".toList
      player_count := 1
      max_player_count := 2
      server_unique_id := "u".toList
      level_name := "l".toList
      gamemode := "g".toList
      gamemode_numeric := 3
      port_v4 := 4
      port_v6 := 5 } true (by decide)

/-- C4 counterexample: a status string of exactly 4 valid tokens parses
with `server_id_string_parsed_ok = false`, not `true` as claimed (all
documented defaults are substituted, but every absent numeric optional
field clears the flag). -/
theorem c4_counterexample :
    parseServerIdString "MCPE;My Server;618;1.20.40".toList =
      .ok ({ edition := "MCPE".toList
             motd := "My Server".toList
             protocol_version := 618
             version_name := "1.20.40".toList
             player_count := -1
             max_player_count := -1
             server_unique_id := []
             level_name := []
             gamemode := "Survival".toList
             gamemode_numeric := 0
             port_v4 := 19132
             port_v6 := 19132 }, false) := by
  decide

/-- C4 amended: a status string of exactly 4 valid tokens parses
successfully with the defaults player_count = -1, max_player_count = -1,
server_unique_id = "", level_name = "", gamemode = "Survival",
gamemode_numeric = 0, port_v4 = 19132, port_v6 = 19132 — but with
`status_parsed_ok = false`, since every optional field is absent. -/
theorem c4_exactly_four_tokens :
    ∀ (s t0 t1 t2 t3 : List Char) (pv : Int),
      splitTokens s = [t0, t1, t2, t3] →
      parseSigned 16 t2 = some pv →
      parseServerIdString s =
        .ok ({ edition := t0
               motd := t1
               protocol_version := pv
               version_name := t3
               player_count := -1
               max_player_count := -1
               server_unique_id := []
               level_name := []
               gamemode := "Survival".toList
               gamemode_numeric := 0
               port_v4 := 19132
               port_v6 := 19132 }, false) := by
  intro s t0 t1 t2 t3 pv hs hpv
  have hlen : (splitTokens s).length = 4 := by rw [hs]; rfl
  have h2 : (splitTokens s).getD 2 [] = t2 := by rw [hs]; rfl
  have build := parseSIS_build s pv (-1) (-1) 0 19132 19132
    false false false false false
    (by omega)
    (by rw [h2]; exact hpv)
    (by rw [hlen]; exact optI_absent 32 ((splitTokens s).getD 4 []) (-1) playerCountError)
    (by rw [hlen]; exact optI_absent 32 ((splitTokens s).getD 5 []) (-1) playerMaxCountError)
    (by rw [hlen]; exact optN_absent 8 ((splitTokens s).getD 9 []) 0 gameModeNumError)
    (by rw [hlen]; exact optN_absent 16 ((splitTokens s).getD 10 []) 19132 port4Error)
    (by rw [hlen]; exact optN_absent 16 ((splitTokens s).getD 11 []) 19132 port6Error)
  rw [build, hlen, hs]
  norm_num [List.getD]

/-- C4 witness: the amended theorem applied to a concrete 4-token
string. -/
theorem c4_exactly_four_tokens_witness :
    parseServerIdString "MCPE;m;0;v".toList =
      .ok ({ edition := "MCPE".toList
             motd := "m".toList
             protocol_version := 0
             version_name := "v".toList
             player_count := -1
             max_player_count := -1
             server_unique_id := []
             level_name := []
             gamemode := "Survival".toList
             gamemode_numeric := 0
             port_v4 := 19132
             port_v6 := 19132 }, false) :=
  c4_exactly_four_tokens "MCPE;m;0;v".toList
    "MCPE".toList "m".toList "0".toList "v".toList 0 (by decide) (by decide)

/-- C9: every successfully decoded reply has `time_since_start` and
`server_guid` read as consecutive 8-byte big-endian signed integers at
offsets 1 and 9, and `server_id_string_len` as a 2-byte big-endian
signed integer at offset 33. -/
theorem c9_big_endian_decoding :
    ∀ (r : List Nat) (p : UnconnectedPong),
      decodePong r = some (.ok p) →
      p.time_since_start = toSigned 64 (beAt r 1 8) ∧
      p.server_guid = toSigned 64 (beAt r 9 8) ∧
      p.server_id_string_len = toSigned 16 (beAt r 33 2) := by
  intro r p h
  simp only [decodePong] at h
  split at h
  · exact absurd h (by simp)
  · split at h
    · exact absurd h (by simp)
    · split at h
      · exact absurd h (by simp)
      · rename_i parsed ok heq
        injection h with h1
        injection h1 with h2
        rw [← h2]
        exact ⟨rfl, rfl, rfl⟩

/-- C9 witness: round-trip on a fixture with known values — uptime
123456789, server guid -1, declared length 10 — decoded byte-exactly. -/
theorem c9_big_endian_witness :
    decodePong c9fix = some (.ok c9pong) ∧
    (c9pong.time_since_start = toSigned 64 (beAt c9fix 1 8) ∧
      c9pong.server_guid = toSigned 64 (beAt c9fix 9 8) ∧
      c9pong.server_id_string_len = toSigned 16 (beAt c9fix 33 2)) ∧
    c9pong.time_since_start = 123456789 ∧
    c9pong.server_guid = -1 ∧
    c9pong.server_id_string_len = 10 :=
  ⟨by decide, c9_big_endian_decoding c9fix c9pong (by decide),
   by decide, by decide, by decide⟩

/-- C2: the absent/malformed asymmetry for optional fields.  Part one:
if every present optional field parses, the call succeeds and every
absent optional field receives its documented default.  Parts two to
six: a present-but-malformed optional numeric token fails the whole
call with that field's own error.  Last part: the five codes are
pairwise distinct. -/
theorem c2_optional_field_asymmetry :
    (∀ (s : List Char) (pv : Int),
      4 ≤ (splitTokens s).length →
      parseSigned 16 ((splitTokens s).getD 2 []) = some pv →
      (5 ≤ (splitTokens s).length →
        (parseSigned 32 ((splitTokens s).getD 4 [])).isSome) →
      (6 ≤ (splitTokens s).length →
        (parseSigned 32 ((splitTokens s).getD 5 [])).isSome) →
      (10 ≤ (splitTokens s).length →
        (parseUnsigned 8 ((splitTokens s).getD 9 [])).isSome) →
      (11 ≤ (splitTokens s).length →
        (parseUnsigned 16 ((splitTokens s).getD 10 [])).isSome) →
      (12 ≤ (splitTokens s).length →
        (parseUnsigned 16 ((splitTokens s).getD 11 [])).isSome) →
      (parseServerIdString s).toOption.isSome = true ∧
      ((splitTokens s).length < 5 →
        (parseServerIdString s).toOption.map (fun x => x.1.player_count) =
          some (-1)) ∧
      ((splitTokens s).length < 6 →
        (parseServerIdString s).toOption.map (fun x => x.1.max_player_count) =
          some (-1)) ∧
      ((splitTokens s).length < 7 →
        (parseServerIdString s).toOption.map (fun x => x.1.server_unique_id) =
          some []) ∧
      ((splitTokens s).length < 8 →
        (parseServerIdString s).toOption.map (fun x => x.1.level_name) =
          some []) ∧
      ((splitTokens s).length < 9 →
        (parseServerIdString s).toOption.map (fun x => x.1.gamemode) =
          some "Survival".toList) ∧
      ((splitTokens s).length < 10 →
        (parseServerIdString s).toOption.map (fun x => x.1.gamemode_numeric) =
          some 0) ∧
      ((splitTokens s).length < 11 →
        (parseServerIdString s).toOption.map (fun x => x.1.port_v4) =
          some 19132) ∧
      ((splitTokens s).length < 12 →
        (parseServerIdString s).toOption.map (fun x => x.1.port_v6) =
          some 19132)) ∧
    (∀ (s : List Char) (pv : Int),
      4 ≤ (splitTokens s).length →
      parseSigned 16 ((splitTokens s).getD 2 []) = some pv →
      5 ≤ (splitTokens s).length →
      parseSigned 32 ((splitTokens s).getD 4 []) = none →
      parseServerIdString s = .error playerCountError) ∧
    (∀ (s : List Char) (pv pc : Int),
      4 ≤ (splitTokens s).length →
      parseSigned 16 ((splitTokens s).getD 2 []) = some pv →
      parseSigned 32 ((splitTokens s).getD 4 []) = some pc →
      6 ≤ (splitTokens s).length →
      parseSigned 32 ((splitTokens s).getD 5 []) = none →
      parseServerIdString s = .error playerMaxCountError) ∧
    (∀ (s : List Char) (pv pc mpc : Int),
      4 ≤ (splitTokens s).length →
      parseSigned 16 ((splitTokens s).getD 2 []) = some pv →
      parseSigned 32 ((splitTokens s).getD 4 []) = some pc →
      parseSigned 32 ((splitTokens s).getD 5 []) = some mpc →
      10 ≤ (splitTokens s).length →
      parseUnsigned 8 ((splitTokens s).getD 9 []) = none →
      parseServerIdString s = .error gameModeNumError) ∧
    (∀ (s : List Char) (pv pc mpc : Int) (gmn : Nat),
      4 ≤ (splitTokens s).length →
      parseSigned 16 ((splitTokens s).getD 2 []) = some pv →
      parseSigned 32 ((splitTokens s).getD 4 []) = some pc →
      parseSigned 32 ((splitTokens s).getD 5 []) = some mpc →
      parseUnsigned 8 ((splitTokens s).getD 9 []) = some gmn →
      11 ≤ (splitTokens s).length →
      parseUnsigned 16 ((splitTokens s).getD 10 []) = none →
      parseServerIdString s = .error port4Error) ∧
    (∀ (s : List Char) (pv pc mpc : Int) (gmn p4 : Nat),
      4 ≤ (splitTokens s).length →
      parseSigned 16 ((splitTokens s).getD 2 []) = some pv →
      parseSigned 32 ((splitTokens s).getD 4 []) = some pc →
      parseSigned 32 ((splitTokens s).getD 5 []) = some mpc →
      parseUnsigned 8 ((splitTokens s).getD 9 []) = some gmn →
      parseUnsigned 16 ((splitTokens s).getD 10 []) = some p4 →
      12 ≤ (splitTokens s).length →
      parseUnsigned 16 ((splitTokens s).getD 11 []) = none →
      parseServerIdString s = .error port6Error) ∧
    List.Pairwise (· ≠ ·)
      [MotdErrorCode.CantParsePlayerCount, .CantParsePlayerMaxCount,
       .CantParseGameModeNum, .CantParsePort4, .CantParsePort6] := by
  refine ⟨?_, ?_, ?_, ?_, ?_, ?_, by decide⟩
  · intro s pv h4n hpv h5 h6 h9 h10 h11
    obtain ⟨pc, b4, e4, d4⟩ :=
      optI_cases 32 (5 ≤ (splitTokens s).length)
        ((splitTokens s).getD 4 []) (-1) playerCountError h5
    obtain ⟨mpc, b5, e5, d5⟩ :=
      optI_cases 32 (6 ≤ (splitTokens s).length)
        ((splitTokens s).getD 5 []) (-1) playerMaxCountError h6
    obtain ⟨gmn, b9, e9, d9⟩ :=
      optN_cases 8 (10 ≤ (splitTokens s).length)
        ((splitTokens s).getD 9 []) 0 gameModeNumError h9
    obtain ⟨p4v, b10, e10, d10⟩ :=
      optN_cases 16 (11 ≤ (splitTokens s).length)
        ((splitTokens s).getD 10 []) 19132 port4Error h10
    obtain ⟨p6v, b11, e11, d11⟩ :=
      optN_cases 16 (12 ≤ (splitTokens s).length)
        ((splitTokens s).getD 11 []) 19132 port6Error h11
    have build := parseSIS_build s pv pc mpc gmn p4v p6v b4 b5 b9 b10 b11
      (by omega) hpv e4 e5 e9 e10 e11
    rw [build]
    refine ⟨rfl, ?_, ?_, ?_, ?_, ?_, ?_, ?_, ?_⟩
    · intro hlt
      have hd := (d4 (by omega)).1
      simp [Except.toOption, hd]
    · intro hlt
      have hd := (d5 (by omega)).1
      simp [Except.toOption, hd]
    · intro hlt
      simp [Except.toOption,
        if_neg (show ¬7 ≤ (splitTokens s).length by omega)]
    · intro hlt
      simp [Except.toOption,
        if_neg (show ¬8 ≤ (splitTokens s).length by omega)]
    · intro hlt
      simp [Except.toOption,
        if_neg (show ¬9 ≤ (splitTokens s).length by omega)]
    · intro hlt
      have hd := (d9 (by omega)).1
      simp [Except.toOption, hd]
    · intro hlt
      have hd := (d10 (by omega)).1
      simp [Except.toOption, hd]
    · intro hlt
      have hd := (d11 (by omega)).1
      simp [Except.toOption, hd]
  · intro s pv h4n hpv h5n hbad
    exact parseSIS_err_pc s pv (by omega) hpv
      (by rw [decide_eq_true h5n]
          exact optI_neg 32 ((splitTokens s).getD 4 []) (-1) playerCountError hbad)
  · intro s pv pc h4n hpv hpc h6n hbad
    exact parseSIS_err_mpc s pv pc true (by omega) hpv
      (by rw [decide_eq_true (by omega : 5 ≤ (splitTokens s).length)]
          exact optI_pos 32 ((splitTokens s).getD 4 []) (-1) playerCountError pc hpc)
      (by rw [decide_eq_true h6n]
          exact optI_neg 32 ((splitTokens s).getD 5 []) (-1) playerMaxCountError hbad)
  · intro s pv pc mpc h4n hpv hpc hmpc h10n hbad
    refine parseSIS_err_gmn s pv pc mpc
      (decide (5 ≤ (splitTokens s).length)) (decide (6 ≤ (splitTokens s).length))
      (by omega) hpv ?_ ?_ ?_
    · rw [decide_eq_true (by omega : 5 ≤ (splitTokens s).length)]
      exact optI_pos 32 ((splitTokens s).getD 4 []) (-1) playerCountError pc hpc
    · rw [decide_eq_true (by omega : 6 ≤ (splitTokens s).length)]
      exact optI_pos 32 ((splitTokens s).getD 5 []) (-1) playerMaxCountError mpc hmpc
    · rw [decide_eq_true h10n]
      exact optN_neg 8 ((splitTokens s).getD 9 []) 0 gameModeNumError hbad
  · intro s pv pc mpc gmn h4n hpv hpc hmpc hgmn h11n hbad
    refine parseSIS_err_p4 s pv pc mpc gmn
      (decide (5 ≤ (splitTokens s).length)) (decide (6 ≤ (splitTokens s).length))
      (decide (10 ≤ (splitTokens s).length))
      (by omega) hpv ?_ ?_ ?_ ?_
    · rw [decide_eq_true (by omega : 5 ≤ (splitTokens s).length)]
      exact optI_pos 32 ((splitTokens s).getD 4 []) (-1) playerCountError pc hpc
    · rw [decide_eq_true (by omega : 6 ≤ (splitTokens s).length)]
      exact optI_pos 32 ((splitTokens s).getD 5 []) (-1) playerMaxCountError mpc hmpc
    · rw [decide_eq_true (by omega : 10 ≤ (splitTokens s).length)]
      exact optN_pos 8 ((splitTokens s).getD 9 []) 0 gameModeNumError gmn hgmn
    · rw [decide_eq_true h11n]
      exact optN_neg 16 ((splitTokens s).getD 10 []) 19132 port4Error hbad
  · intro s pv pc mpc gmn p4 h4n hpv hpc hmpc hgmn hp4 h12n hbad
    refine parseSIS_err_p6 s pv pc mpc gmn p4
      (decide (5 ≤ (splitTokens s).length)) (decide (6 ≤ (splitTokens s).length))
      (decide (10 ≤ (splitTokens s).length)) (decide (11 ≤ (splitTokens s).length))
      (by omega) hpv ?_ ?_ ?_ ?_ ?_
    · rw [decide_eq_true (by omega : 5 ≤ (splitTokens s).length)]
      exact optI_pos 32 ((splitTokens s).getD 4 []) (-1) playerCountError pc hpc
    · rw [decide_eq_true (by omega : 6 ≤ (splitTokens s).length)]
      exact optI_pos 32 ((splitTokens s).getD 5 []) (-1) playerMaxCountError mpc hmpc
    · rw [decide_eq_true (by omega : 10 ≤ (splitTokens s).length)]
      exact optN_pos 8 ((splitTokens s).getD 9 []) 0 gameModeNumError gmn hgmn
    · rw [decide_eq_true (by omega : 11 ≤ (splitTokens s).length)]
      exact optN_pos 16 ((splitTokens s).getD 10 []) 19132 port4Error p4 hp4
    · rw [decide_eq_true h12n]
      exact optN_neg 16 ((splitTokens s).getD 11 []) 19132 port6Error hbad

/-- C2 witness: the success part applied to a 6-token string (absent
optional fields defaulted, call succeeded) and a malformed-token part
applied to a string with a non-numeric player_count. -/
theorem c2_optional_field_asymmetry_witness :
    (parseServerIdString "MCPE;My Server;618;1.20.40;5;20".toList).toOption.isSome
      = true ∧
    parseServerIdString "MCPE;x;1;v;bad".toList = .error playerCountError :=
  ⟨(c2_optional_field_asymmetry.1 "MCPE;My Server;618;1.20.40;5;20".toList 618
      (by decide) (by decide) (by decide) (by decide) (by decide) (by decide)
      (by decide)).1,
   c2_optional_field_asymmetry.2.1 "MCPE;x;1;v;bad".toList 1
      (by decide) (by decide) (by decide) (by decide)⟩

/-- C6: the decoder validates neither the packet id nor the magic.
Part one: every successful decode carries the fixed `MAGIC` constant in
its magic field and returns the reply's byte 0 verbatim as the id.
Part two: arbitrarily rewriting any byte of the reply's magic region
(offsets 17-32) leaves the decode result completely unchanged — no
error can arise from a mismatched magic.  Part three: rewriting the id
byte at offset 0 only changes the returned id field — no error can
arise from a mismatched id. -/
theorem c6_id_and_magic_not_validated :
    (∀ (r : List Nat) (p : UnconnectedPong),
      decodePong r = some (.ok p) → p.magic = MAGIC ∧ p.id = byteAt r 0) ∧
    (∀ (r : List Nat) (i v : Nat), 17 ≤ i → i ≤ 32 →
      decodePong (r.set i v) = decodePong r) ∧
    (∀ (r : List Nat) (v : Nat), v < 256 →
      decodePong (r.set 0 v) =
        (decodePong r).map (Except.map (fun p => { p with id := v }))) := by
  refine ⟨?_, ?_, ?_⟩
  · intro r p h
    simp only [decodePong] at h
    split at h
    · exact absurd h (by simp)
    · split at h
      · exact absurd h (by simp)
      · split at h
        · exact absurd h (by simp)
        · rename_i parsed ok heq
          injection h with h1
          injection h1 with h2
          rw [← h2]
          exact ⟨rfl, rfl⟩
  · intro r i v h17 h32
    simp only [decodePong, List.length_set]
    rw [byteAt_set_ne r i 0 v (by omega),
      beAt_set_out r i v 1 8 (by omega),
      beAt_set_out r i v 9 8 (by omega),
      beAt_set_out r i v 33 2 (by omega),
      drop35_set r i v (by omega)]
  · intro r v hv
    simp only [decodePong, List.length_set]
    by_cases h35 : r.length < 35
    · rw [if_pos h35, if_pos h35]
      rfl
    · rw [if_neg h35, if_neg h35,
        beAt_set_out r 0 v 1 8 (by omega),
        beAt_set_out r 0 v 9 8 (by omega),
        beAt_set_out r 0 v 33 2 (by omega),
        drop35_set r 0 v (by omega),
        byteAt_set_self r 0 v (by omega),
        Nat.mod_eq_of_lt hv]
      by_cases hL : r.length < 35 + usizeOfI16 (toSigned 16 (beAt r 33 2))
      · rw [if_pos hL, if_pos hL]
        rfl
      · rw [if_neg hL, if_neg hL]
        generalize parseServerIdString
          (utf8DecodeLossy
            (((r.drop 35).take (usizeOfI16 (toSigned 16 (beAt r 33 2)))).map
              (· % 256))) = res
        cases res with
        | error e => rfl
        | ok val =>
          obtain ⟨parsed, ok⟩ := val
          rfl

/-- C6 witness: part one applied to the fixture; the magic field of the
decoded fixture is the constant even though the fixture's magic region
was overwritten with `0xAA` bytes, and the id byte is returned
verbatim. -/
theorem c6_id_and_magic_witness :
    decodePong (c6fix) = some (.ok c6pong) ∧
    (c6pong.magic = MAGIC ∧ c6pong.id = byteAt c6fix 0) ∧
    decodePong (c6fix.set 20 0x55) = decodePong c6fix :=
  ⟨by decide,
   (c6_id_and_magic_not_validated.1 c6fix c6pong (by decide)),
   c6_id_and_magic_not_validated.2.1 c6fix 20 0x55 (by decide) (by decide)⟩

end McpeMotd
